import Mathlib

/-!
Verification of the startup sequencer in `backend_cpp/src/main.cpp`.

The program is a straight-line C++ `main`: it prints a startup banner and the
OpenCV version to standard output, then enters a `try` block in which it opens
camera device 0 (printing an error line to standard error on failure, without
aborting), prints an initialization banner, declares an empty `cv::Mat frame`,
and runs a `while (true)` loop whose body is a single unconditional `break`.
A `catch (const std::exception& e)` handler prints the exception text to
standard error and returns 1; otherwise `main` returns 0.

The embedding models a run by an environment carrying the linked library's
version string, the camera-open outcome, an optional injected exception
(a C++ throw at one of the program's points, either derived from
`std::exception` or some other thrown value), and the process argv /
environment variables (which `main()` never receives or reads). The loop is
executed with explicit fuel so that everything stays total and executable.
-/

namespace RaspibotBackend

/-- A thrown C++ value: either an object derived from `std::exception`
(carrying its `what()` string) or any other thrown value, which the
handler `catch (const std::exception&)` does not match. -/
inductive CxxExn where
  | stdExn (what : String)
  | other
deriving DecidableEq, Repr

/-- The program points of `main` at which a throw can occur.  The first two
precede the `try` block; the rest lie inside the guarded region. -/
inductive FaultPoint where
  | startupBanner
  | versionLine
  | camOpen
  | camErrorPrint
  | initBanner
  | loopBody
deriving DecidableEq, Repr

/-- The run environment of the process.  `cvVersion` is the linked OpenCV
library's compiled-in `CV_VERSION` string; `cameraOpens` is whether
`cv::VideoCapture cap(0)` yields an opened capture; `fault` optionally injects
a thrown value at one program point (representing a library call throwing, or
fault injection); `argv` and `sysEnv` are the process command line and
environment variables, which the source `int main()` never reads. -/
structure Env where
  cvVersion : String
  cameraOpens : Bool
  fault : Option (FaultPoint × CxxExn)
  argv : List String
  sysEnv : List (String × String)
deriving DecidableEq, Repr

/-- The two output streams, as lists of emitted lines. -/
structure Output where
  stdout : List String
  stderr : List String
deriving DecidableEq, Repr

def appendOut (o : Output) (s : String) : Output :=
  { o with stdout := o.stdout ++ [s] }

def appendErr (o : Output) (s : String) : Output :=
  { o with stderr := o.stderr ++ [s] }

/-- `"[INFO] Starting PENS-KAIT 2026 C++ Backend..."` -/
def startupLine : String := "[INFO] Starting PENS-KAIT 2026 C++ Backend..."

/-- `"[INFO] OpenCV Version: " << CV_VERSION` -/
def versionLine (v : String) : String := "[INFO] OpenCV Version: " ++ v

/-- `"[ERROR] Could not open camera"` -/
def cameraErrorLine : String := "[ERROR] Could not open camera"

/-- `"[INFO] Backend Core Initialized. Waiting for tasks..."` -/
def initLine : String := "[INFO] Backend Core Initialized. Waiting for tasks..."

/-- The line the catch handler prints: `"[ERROR] Exception: " << e.what()`. -/
def exnLine (what : String) : String := "[ERROR] Exception: " ++ what

/-- The exception injected at point `p` of this run, if any. -/
def faultAt (env : Env) (p : FaultPoint) : Option CxxExn :=
  match env.fault with
  | some (q, e) => if q = p then some e else none
  | none => none

/-- Model of the `cv::Mat` image-frame buffer (`cv::Mat frame;`).  Only its
identity matters: it is declared default-constructed and never touched. -/
structure Mat where
  data : List (List Nat)
deriving DecidableEq, Repr

/-- The default-constructed, empty `cv::Mat`. -/
def Mat.empty : Mat := ⟨[]⟩

/-- Control signal produced by one execution of the `while (true)` body. -/
inductive LoopSignal where
  | brk
  | cont
deriving DecidableEq, Repr

/-- One iteration of the loop body.  Every statement except `break;` is
commented out in the source, so the body leaves `frame` untouched and
unconditionally breaks. -/
def loopBody (frame : Mat) : Mat × LoopSignal :=
  (frame, LoopSignal.brk)

/-- Fuel-bounded execution of `while (true) { ... }`: runs `loopBody` until it
signals a break, returning the final frame and the number of completed
iterations, or `none` if the fuel runs out first. -/
def whileTrue (fuel : Nat) (frame : Mat) (iters : Nat) : Option (Mat × Nat) :=
  match fuel with
  | 0 => none
  | Nat.succ fuel' =>
    match loopBody frame with
    | (f, LoopSignal.brk) => some (f, iters + 1)
    | (f, LoopSignal.cont) => whileTrue fuel' f (iters + 1)

/-- Outcome of the guarded (`try`) region. -/
inductive GOutcome where
  | completed
  | raised (e : CxxExn)
  | hang
deriving DecidableEq, Repr

/-- Result of running the guarded region: the output so far, the outcome,
whether control reached the `while` loop, how many loop iterations completed,
and the value of the `frame` buffer at scope exit (`none` when the throw
happened before its declaration). -/
structure GuardedResult where
  out : Output
  outcome : GOutcome
  reachedLoop : Bool
  loopIters : Nat
  frame : Option Mat
deriving DecidableEq, Repr

/-- The guarded region from the initialization banner onward: print the
banner, declare `cv::Mat frame;`, and run the loop. -/
def afterCam (env : Env) (fuel : Nat) (out1 : Output) : GuardedResult :=
  match faultAt env FaultPoint.initBanner with
  | some e => ⟨out1, GOutcome.raised e, false, 0, none⟩
  | none =>
    let out2 := appendOut out1 initLine
    let frame0 := Mat.empty
    match faultAt env FaultPoint.loopBody with
    | some e => ⟨out2, GOutcome.raised e, true, 0, some frame0⟩
    | none =>
      match whileTrue fuel frame0 0 with
      | some (f, n) => ⟨out2, GOutcome.completed, true, n, some f⟩
      | none => ⟨out2, GOutcome.hang, true, 0, some frame0⟩

/-- The whole `try` block: open the camera (on failure print the camera error
line to standard error and continue), then `afterCam`. -/
def runGuarded (env : Env) (fuel : Nat) (out0 : Output) : GuardedResult :=
  match faultAt env FaultPoint.camOpen with
  | some e => ⟨out0, GOutcome.raised e, false, 0, none⟩
  | none =>
    if env.cameraOpens then
      afterCam env fuel out0
    else
      match faultAt env FaultPoint.camErrorPrint with
      | some e => ⟨out0, GOutcome.raised e, false, 0, none⟩
      | none => afterCam env fuel (appendErr out0 cameraErrorLine)

/-- How a run of `main` ends: a normal return with an exit code, an exception
propagating out of `main` (no handler matched), or fuel exhaustion. -/
inductive RunResult where
  | normal (code : Int)
  | uncaught (e : CxxExn)
  | hang
deriving DecidableEq, Repr

/-- Standard output contents just before the `try` block. -/
def preTryOut (env : Env) : Output :=
  ⟨[startupLine, versionLine env.cvVersion], []⟩

/-- The guarded region as entered by `main`. -/
def guardedOf (env : Env) (fuel : Nat) : GuardedResult :=
  runGuarded env fuel (preTryOut env)

/-- The whole of `main`: the two unguarded `cout` lines, then the `try` block,
then the `catch (const std::exception& e)` handler which prints
`exnLine e.what()` and returns 1; a throw of any other value propagates out of
`main`, and normal completion returns 0. -/
def runMain (env : Env) (fuel : Nat) : Output × RunResult :=
  match faultAt env FaultPoint.startupBanner with
  | some e => (⟨[], []⟩, RunResult.uncaught e)
  | none =>
    match faultAt env FaultPoint.versionLine with
    | some e => (⟨[startupLine], []⟩, RunResult.uncaught e)
    | none =>
      match (guardedOf env fuel).outcome with
      | GOutcome.completed => ((guardedOf env fuel).out, RunResult.normal 0)
      | GOutcome.hang => ((guardedOf env fuel).out, RunResult.hang)
      | GOutcome.raised (CxxExn.stdExn w) =>
          (appendErr (guardedOf env fuel).out (exnLine w), RunResult.normal 1)
      | GOutcome.raised CxxExn.other =>
          ((guardedOf env fuel).out, RunResult.uncaught CxxExn.other)

/-- A fault-free run environment with an available camera. -/
def envPlain : Env := ⟨"4.10.0", true, none, [], []⟩

/-- A fault-free run environment with no camera device available. -/
def envNoCam : Env := ⟨"4.10.0", false, none, [], []⟩

/-- A run in which a non-`std::exception` value is thrown inside the loop. -/
def envOtherThrow : Env :=
  ⟨"4.10.0", true, some (FaultPoint.loopBody, CxxExn.other), [], []⟩

/-- A run in which a `std::exception` is thrown at the initialization banner. -/
def envStdThrow : Env :=
  ⟨"4.10.0", true, some (FaultPoint.initBanner, CxxExn.stdExn ("boom")), [], []⟩

/-- A run in which a `std::exception` is thrown while emitting the startup
banner, before the `try` block. -/
def envPreTryThrow : Env :=
  ⟨"4.10.0", true, some (FaultPoint.startupBanner, CxxExn.stdExn ("boom")), [], []⟩

/-- A fault-free environment with the given version string and camera
outcome. -/
def envWith (v : String) (cam : Bool) : Env := ⟨v, cam, none, [], []⟩

theorem whileTrue_one (fuel : Nat) (f : Mat) (hf : 1 ≤ fuel) :
    whileTrue fuel f 0 = some (f, 1) := by
  cases fuel with
  | zero => exact absurd hf (by decide)
  | succ n => rfl

theorem faultAt_none (env : Env) (p : FaultPoint) (h : env.fault = none) :
    faultAt env p = none := by
  simp [faultAt, h]

theorem guardedOf_no_fault (env : Env) (fuel : Nat) (hf : 1 ≤ fuel)
    (h : env.fault = none) :
    guardedOf env fuel =
      ⟨⟨[startupLine, versionLine env.cvVersion, initLine],
        if env.cameraOpens then [] else [cameraErrorLine]⟩,
       GOutcome.completed, true, 1, some Mat.empty⟩ := by
  unfold guardedOf runGuarded afterCam preTryOut
  simp only [faultAt_none env _ h, whileTrue_one fuel Mat.empty hf]
  cases hc : env.cameraOpens <;> simp [appendOut, appendErr]

theorem runMain_no_fault (env : Env) (fuel : Nat) (hf : 1 ≤ fuel)
    (h : env.fault = none) :
    runMain env fuel =
      (⟨[startupLine, versionLine env.cvVersion, initLine],
        if env.cameraOpens then [] else [cameraErrorLine]⟩,
       RunResult.normal 0) := by
  unfold runMain
  rw [faultAt_none env _ h, faultAt_none env _ h, guardedOf_no_fault env fuel hf h]

theorem guarded_outcome_of_no_guarded_fault (env : Env) (fuel : Nat)
    (h1 : faultAt env FaultPoint.camOpen = none)
    (h2 : faultAt env FaultPoint.camErrorPrint = none)
    (h3 : faultAt env FaultPoint.initBanner = none)
    (h4 : faultAt env FaultPoint.loopBody = none) :
    (guardedOf env fuel).outcome = GOutcome.completed ∨
    (guardedOf env fuel).outcome = GOutcome.hang := by
  unfold guardedOf runGuarded afterCam
  simp only [h1, h2, h3, h4]
  cases hc : env.cameraOpens <;>
    rcases hw : whileTrue fuel Mat.empty 0 with _ | ⟨f, n⟩ <;> simp

theorem guarded_raised_pre_try_clear (env : Env) (fuel : Nat) (e : CxxExn)
    (h : (guardedOf env fuel).outcome = GOutcome.raised e) :
    faultAt env FaultPoint.startupBanner = none ∧
    faultAt env FaultPoint.versionLine = none := by
  cases hf : env.fault with
  | none => simp [faultAt, hf]
  | some pe =>
    obtain ⟨p, e'⟩ := pe
    cases p
    case startupBanner =>
      exfalso
      rcases guarded_outcome_of_no_guarded_fault env fuel
          (by simp [faultAt, hf]) (by simp [faultAt, hf])
          (by simp [faultAt, hf]) (by simp [faultAt, hf]) with h2 | h2 <;>
        rw [h] at h2 <;> exact GOutcome.noConfusion h2
    case versionLine =>
      exfalso
      rcases guarded_outcome_of_no_guarded_fault env fuel
          (by simp [faultAt, hf]) (by simp [faultAt, hf])
          (by simp [faultAt, hf]) (by simp [faultAt, hf]) with h2 | h2 <;>
        rw [h] at h2 <;> exact GOutcome.noConfusion h2
    all_goals simp [faultAt, hf]

theorem runMain_of_raised_std (env : Env) (fuel : Nat) (w : String)
    (h : (guardedOf env fuel).outcome = GOutcome.raised (CxxExn.stdExn w)) :
    runMain env fuel =
      (appendErr (guardedOf env fuel).out (exnLine w), RunResult.normal 1) := by
  obtain ⟨h1, h2⟩ := guarded_raised_pre_try_clear env fuel _ h
  unfold runMain
  simp only [h1, h2, h]

theorem runMain_of_raised_other (env : Env) (fuel : Nat)
    (h : (guardedOf env fuel).outcome = GOutcome.raised CxxExn.other) :
    runMain env fuel =
      ((guardedOf env fuel).out, RunResult.uncaught CxxExn.other) := by
  obtain ⟨h1, h2⟩ := guarded_raised_pre_try_clear env fuel _ h
  unfold runMain
  simp only [h1, h2, h]

theorem runMain_cases (env : Env) (fuel : Nat) :
    (∃ e, (runMain env fuel).2 = RunResult.uncaught e) ∨
    (runMain env fuel).2 = RunResult.hang ∨
    (runMain env fuel).2 = RunResult.normal 0 ∨
    (runMain env fuel).2 = RunResult.normal 1 := by
  unfold runMain
  cases h1 : faultAt env FaultPoint.startupBanner with
  | some e => exact Or.inl ⟨e, rfl⟩
  | none =>
    cases h2 : faultAt env FaultPoint.versionLine with
    | some e => exact Or.inl ⟨e, rfl⟩
    | none =>
      cases h3 : (guardedOf env fuel).outcome with
      | completed => simp
      | hang => simp
      | raised e =>
        cases e with
        | stdExn w => simp
        | other => exact Or.inl ⟨_, rfl⟩

theorem guarded_not_hang (env : Env) (fuel : Nat) (hf : 1 ≤ fuel) :
    (guardedOf env fuel).outcome ≠ GOutcome.hang := by
  cases hfa : env.fault with
  | none =>
    rw [guardedOf_no_fault env fuel hf hfa]
    simp
  | some pe =>
    obtain ⟨p, e⟩ := pe
    unfold guardedOf runGuarded afterCam
    simp only [whileTrue_one fuel Mat.empty hf, faultAt, hfa]
    cases p <;> cases hc : env.cameraOpens <;> simp

theorem runMain_ne_hang (env : Env) (fuel : Nat) (hf : 1 ≤ fuel) :
    (runMain env fuel).2 ≠ RunResult.hang := by
  unfold runMain
  cases h1 : faultAt env FaultPoint.startupBanner with
  | some e => simp
  | none =>
    cases h2 : faultAt env FaultPoint.versionLine with
    | some e => simp
    | none =>
      cases h3 : (guardedOf env fuel).outcome with
      | completed => simp
      | hang => exact absurd h3 (guarded_not_hang env fuel hf)
      | raised e =>
        cases e with
        | stdExn w => simp
        | other => simp

theorem afterCam_out_shape (env : Env) (fuel : Nat) (o : Output) :
    ∃ s2, (afterCam env fuel o).out.stdout = o.stdout ++ s2 := by
  unfold afterCam
  cases h3 : faultAt env FaultPoint.initBanner with
  | some e => exact ⟨[], by simp⟩
  | none =>
    cases h4 : faultAt env FaultPoint.loopBody with
    | some e => exact ⟨[initLine], by simp [appendOut]⟩
    | none =>
      rcases hw : whileTrue fuel Mat.empty 0 with _ | ⟨f, n⟩ <;>
        exact ⟨[initLine], by simp [hw, appendOut]⟩

theorem runGuarded_out_shape (env : Env) (fuel : Nat) (o : Output) :
    ∃ s2, (runGuarded env fuel o).out.stdout = o.stdout ++ s2 := by
  unfold runGuarded
  cases h1 : faultAt env FaultPoint.camOpen with
  | some e => exact ⟨[], by simp⟩
  | none =>
    cases hc : env.cameraOpens with
    | true => exact afterCam_out_shape env fuel o
    | false =>
      cases h2 : faultAt env FaultPoint.camErrorPrint with
      | some e => exact ⟨[], by simp⟩
      | none =>
        obtain ⟨s2, hs⟩ := afterCam_out_shape env fuel (appendErr o cameraErrorLine)
        exact ⟨s2, hs⟩

theorem guarded_out_stdout_shape (env : Env) (fuel : Nat) :
    ∃ rest, (guardedOf env fuel).out.stdout =
      startupLine :: versionLine env.cvVersion :: rest := by
  obtain ⟨s2, hs⟩ := runGuarded_out_shape env fuel (preTryOut env)
  exact ⟨s2, hs⟩

/-- C1: a completed run of main returns exit status 0 or 1 and nothing else:
fault-free runs, camera failure included, return 0, and every run in which
the guarded region raises a std::exception (so the handler catches it)
returns 1. -/
theorem exit_code_zero_or_one (env : Env) (fuel : Nat) (hf : 1 ≤ fuel) :
    (∀ c : Int, (runMain env fuel).2 = RunResult.normal c → c = 0 ∨ c = 1) ∧
    (env.fault = none → (runMain env fuel).2 = RunResult.normal 0) ∧
    (∀ w, (guardedOf env fuel).outcome = GOutcome.raised (CxxExn.stdExn w) →
      (runMain env fuel).2 = RunResult.normal 1) := by
  refine ⟨?_, ?_, ?_⟩
  · intro c hc
    rcases runMain_cases env fuel with ⟨e, h⟩ | h | h | h
    · rw [h] at hc
      exact RunResult.noConfusion hc
    · rw [h] at hc
      exact RunResult.noConfusion hc
    · rw [h] at hc
      exact Or.inl (RunResult.normal.inj hc).symm
    · rw [h] at hc
      exact Or.inr (RunResult.normal.inj hc).symm
  · intro h
    rw [runMain_no_fault env fuel hf h]
  · intro w h
    rw [runMain_of_raised_std env fuel w h]

/-- C1 witness: a concrete camera-failure run completes with exit status 0. -/
theorem exit_code_zero_or_one_witness :
    (runMain envNoCam 1).2 = RunResult.normal 0 :=
  (exit_code_zero_or_one envNoCam 1 (by decide)).2.1 rfl

/-- C2 counterexample: a non-std::exception value thrown inside the guarded
region (here in the loop body) is not caught by the handler: the run does not
return exit status 1, no description line is emitted to standard error, and
the exception propagates out of main. -/
theorem any_exception_caught_cex :
    (runMain envOtherThrow 1).2 = RunResult.uncaught CxxExn.other ∧
    (runMain envOtherThrow 1).2 ≠ RunResult.normal 1 ∧
    (runMain envOtherThrow 1).1.stderr = [] := by
  refine ⟨rfl, by decide, rfl⟩

/-- C2 amended: for every std::exception raised within the guarded region,
the exception is caught once at the outermost scope, exactly one description
line is appended to the diagnostic (error) stream, and the process returns
exit status 1. -/
theorem std_exn_caught_once_reported (env : Env) (fuel : Nat) (w : String)
    (h : (guardedOf env fuel).outcome = GOutcome.raised (CxxExn.stdExn w)) :
    (runMain env fuel).2 = RunResult.normal 1 ∧
    (runMain env fuel).1.stderr =
      (guardedOf env fuel).out.stderr ++ [exnLine w] := by
  rw [runMain_of_raised_std env fuel w h]
  exact ⟨rfl, rfl⟩

/-- C2 amended witness: a concrete run throwing a std::exception at the
initialization banner returns 1 with the single description line on the
error stream. -/
theorem std_exn_caught_once_reported_witness :
    (runMain envStdThrow 1).2 = RunResult.normal 1 ∧
    (runMain envStdThrow 1).1.stderr = [exnLine ("boom")] := by
  have h := std_exn_caught_once_reported envStdThrow 1 ("boom") rfl
  exact ⟨h.1, h.2.trans rfl⟩

/-- C3: on every fault-free run in which camera acquisition fails, exactly
one camera-error line is emitted to the error stream, execution continues to
the loop rather than aborting, and the process exits with status 0. -/
theorem camera_failure_logged_nonfatal (env : Env) (fuel : Nat) (hf : 1 ≤ fuel)
    (hfault : env.fault = none) (hcam : env.cameraOpens = false) :
    (runMain env fuel).1.stderr = [cameraErrorLine] ∧
    (guardedOf env fuel).reachedLoop = true ∧
    (runMain env fuel).2 = RunResult.normal 0 := by
  rw [runMain_no_fault env fuel hf hfault, guardedOf_no_fault env fuel hf hfault]
  simp [hcam]

/-- C3 witness: the concrete no-camera run. -/
theorem camera_failure_logged_nonfatal_witness :
    (runMain envNoCam 1).1.stderr = [cameraErrorLine] ∧
    (guardedOf envNoCam 1).reachedLoop = true ∧
    (runMain envNoCam 1).2 = RunResult.normal 0 :=
  camera_failure_logged_nonfatal envNoCam 1 (by decide) rfl rfl

/-- C4: every success-path (fault-free) run prints exactly three lines to
standard output, in fixed order: the startup banner, the vision-library
version line, and the initialization-complete banner. -/
theorem success_path_stdout_three_lines (env : Env) (fuel : Nat)
    (hf : 1 ≤ fuel) (hfault : env.fault = none) :
    (runMain env fuel).1.stdout =
      [startupLine, versionLine env.cvVersion, initLine] := by
  rw [runMain_no_fault env fuel hf hfault]

/-- C4 witness: the concrete fault-free run with an available camera. -/
theorem success_path_stdout_three_lines_witness :
    (runMain envPlain 1).1.stdout =
      [startupLine, versionLine (envPlain.cvVersion), initLine] :=
  success_path_stdout_three_lines envPlain 1 (by decide) rfl

/-- C5: the loop body unconditionally signals break regardless of the frame
state, the while loop completes after exactly one iteration for any
sufficient fuel, fault-free runs record exactly one loop iteration, and no
run of main with sufficient fuel hangs. -/
theorem loop_exits_after_first_iteration (env : Env) (fuel : Nat) (f : Mat)
    (hf : 1 ≤ fuel) :
    (loopBody f).2 = LoopSignal.brk ∧
    whileTrue fuel f 0 = some (f, 1) ∧
    (env.fault = none → (guardedOf env fuel).loopIters = 1) ∧
    (runMain env fuel).2 ≠ RunResult.hang := by
  refine ⟨rfl, whileTrue_one fuel f hf, ?_, runMain_ne_hang env fuel hf⟩
  intro hfa
  rw [guardedOf_no_fault env fuel hf hfa]

/-- C5 witness: the concrete fault-free run with fuel 1. -/
theorem loop_exits_after_first_iteration_witness :
    (loopBody Mat.empty).2 = LoopSignal.brk ∧
    whileTrue 1 Mat.empty 0 = some (Mat.empty, 1) ∧
    (envPlain.fault = none → (guardedOf envPlain 1).loopIters = 1) ∧
    (runMain envPlain 1).2 ≠ RunResult.hang :=
  loop_exits_after_first_iteration envPlain 1 Mat.empty (by decide)

/-- C6: the program reads no command-line arguments or environment variables
(runs differing only in argv or the process environment are identical), any
two fault-free runs with the same camera-open outcome and the same linked
library version produce identical outputs, and the only line depending on
the linked library is the version line, which reports exactly the library's
compiled-in version identifier. -/
theorem no_inputs_and_deterministic (e1 e2 : Env) (fuel : Nat) (hf : 1 ≤ fuel)
    (hfa1 : e1.fault = none) (hfa2 : e2.fault = none)
    (hcam : e1.cameraOpens = e2.cameraOpens) :
    (∀ a s a2 s2,
        runMain { e1 with argv := a, sysEnv := s } fuel =
        runMain { e1 with argv := a2, sysEnv := s2 } fuel) ∧
    (e1.cvVersion = e2.cvVersion → runMain e1 fuel = runMain e2 fuel) ∧
    (runMain e1 fuel).1.stdout =
      [startupLine, "[INFO] OpenCV Version: " ++ e1.cvVersion, initLine] := by
  refine ⟨?_, ?_, ?_⟩
  · intro a s a2 s2
    rw [runMain_no_fault { e1 with argv := a, sysEnv := s } fuel hf hfa1,
      runMain_no_fault { e1 with argv := a2, sysEnv := s2 } fuel hf hfa1]
  · intro hv
    rw [runMain_no_fault e1 fuel hf hfa1, runMain_no_fault e2 fuel hf hfa2,
      hv, hcam]
  · rw [runMain_no_fault e1 fuel hf hfa1]
    rfl

/-- C6 witness: a concrete run is unchanged when argv and the environment
variables change. -/
theorem no_inputs_and_deterministic_witness :
    runMain { envPlain with argv := [], sysEnv := [] } 1 =
      runMain { envPlain with argv := ["--verbose"],
                              sysEnv := [("HOME", "/root")] } 1 :=
  (no_inputs_and_deterministic envPlain envPlain 1 (by decide) rfl rfl
    rfl).1 [] [] ["--verbose"] [("HOME", "/root")]

/-- C7: the image-frame buffer is never populated and never read: the loop
body returns the frame unchanged and its break decision is the same for any
two frame values, and at guarded-scope exit the buffer is either still the
default-constructed empty value or was never declared (when a throw preceded
its declaration). -/
theorem frame_buffer_inert (env : Env) (fuel : Nat) (f g : Mat)
    (hf : 1 ≤ fuel) :
    loopBody f = (f, LoopSignal.brk) ∧
    (loopBody f).2 = (loopBody g).2 ∧
    ((guardedOf env fuel).frame = some Mat.empty ∨
      (guardedOf env fuel).frame = none) := by
  refine ⟨rfl, rfl, ?_⟩
  cases hfa : env.fault with
  | none =>
    rw [guardedOf_no_fault env fuel hf hfa]
    left
    rfl
  | some pe =>
    obtain ⟨p, e⟩ := pe
    unfold guardedOf runGuarded afterCam
    simp only [whileTrue_one fuel Mat.empty hf, faultAt, hfa]
    cases p <;> cases hc : env.cameraOpens <;> simp

/-- C7 witness: the concrete fault-free run leaves the buffer at its
default value. -/
theorem frame_buffer_inert_witness :
    loopBody Mat.empty = (Mat.empty, LoopSignal.brk) ∧
    (loopBody Mat.empty).2 = (loopBody Mat.empty).2 ∧
    ((guardedOf envPlain 1).frame = some Mat.empty ∨
      (guardedOf envPlain 1).frame = none) :=
  frame_buffer_inert envPlain 1 Mat.empty Mat.empty (by decide)

/-- C8: when a value not derived from std::exception is thrown in the
guarded region, the handler is not entered: no description is appended to
the error stream, the run does not return exit status 1, and the exception
propagates out of main. -/
theorem non_std_exception_not_caught (env : Env) (fuel : Nat)
    (h : (guardedOf env fuel).outcome = GOutcome.raised CxxExn.other) :
    (runMain env fuel).2 = RunResult.uncaught CxxExn.other ∧
    (runMain env fuel).2 ≠ RunResult.normal 1 ∧
    (runMain env fuel).1.stderr = (guardedOf env fuel).out.stderr := by
  rw [runMain_of_raised_other env fuel h]
  exact ⟨rfl, by simp, rfl⟩

/-- C8 witness: the concrete run throwing a non-std value in the loop. -/
theorem non_std_exception_not_caught_witness :
    (runMain envOtherThrow 1).2 = RunResult.uncaught CxxExn.other ∧
    (runMain envOtherThrow 1).2 ≠ RunResult.normal 1 ∧
    (runMain envOtherThrow 1).1.stderr = (guardedOf envOtherThrow 1).out.stderr :=
  non_std_exception_not_caught envOtherThrow 1 rfl

/-- C9: the initialization banner is emitted and the loop is entered whether
or not the camera opened, so fault-free runs with and without a camera print
the same three standard-output lines in the same order. -/
theorem init_banner_and_loop_regardless_of_camera (v : String) (fuel : Nat)
    (hf : 1 ≤ fuel) :
    (runMain (envWith v true) fuel).1.stdout =
      (runMain (envWith v false) fuel).1.stdout ∧
    initLine ∈ (runMain (envWith v false) fuel).1.stdout ∧
    (guardedOf (envWith v false) fuel).reachedLoop = true ∧
    (guardedOf (envWith v true) fuel).reachedLoop = true := by
  rw [runMain_no_fault (envWith v true) fuel hf rfl,
    runMain_no_fault (envWith v false) fuel hf rfl,
    guardedOf_no_fault (envWith v true) fuel hf rfl,
    guardedOf_no_fault (envWith v false) fuel hf rfl]
  simp [envWith]

/-- C9 witness: a concrete version string. -/
theorem init_banner_and_loop_regardless_of_camera_witness :
    (runMain (envWith ("4.10.0") true) 1).1.stdout =
      (runMain (envWith ("4.10.0") false) 1).1.stdout :=
  (init_banner_and_loop_regardless_of_camera ("4.10.0") 1 (by decide)).1

/-- C10: the startup banner and version line are emitted before the guarded
region: an exception thrown while emitting either one propagates out of main
uncaught, and on every run that exits with status 1 (handler entered) the
two lines are already the first two entries on standard output. -/
theorem pre_try_lines_outside_guard (env : Env) (fuel : Nat) (e : CxxExn)
    (h : env.fault = some (FaultPoint.startupBanner, e) ∨
         env.fault = some (FaultPoint.versionLine, e)) :
    (runMain env fuel).2 = RunResult.uncaught e ∧
    (∀ env2 : Env, ∀ fuel2 : Nat,
      (runMain env2 fuel2).2 = RunResult.normal 1 →
      ∃ rest, (runMain env2 fuel2).1.stdout =
        startupLine :: versionLine env2.cvVersion :: rest) := by
  refine ⟨?_, ?_⟩
  · rcases h with h | h <;>
      (unfold runMain; simp [faultAt, h])
  · intro env2 fuel2 hrun
    unfold runMain at hrun
    cases h1 : faultAt env2 FaultPoint.startupBanner with
    | some e2 =>
      rw [h1] at hrun
      exact absurd hrun (by simp)
    | none =>
      rw [h1] at hrun
      cases h2 : faultAt env2 FaultPoint.versionLine with
      | some e2 =>
        rw [h2] at hrun
        exact absurd hrun (by simp)
      | none =>
        rw [h2] at hrun
        cases h3 : (guardedOf env2 fuel2).outcome with
        | completed =>
          rw [h3] at hrun
          simp at hrun
        | hang =>
          rw [h3] at hrun
          exact absurd hrun (by simp)
        | raised e3 =>
          cases e3 with
          | stdExn w =>
            obtain ⟨rest, hrest⟩ := guarded_out_stdout_shape env2 fuel2
            refine ⟨rest, ?_⟩
            rw [runMain_of_raised_std env2 fuel2 w h3]
            exact hrest
          | other =>
            rw [h3] at hrun
            exact absurd hrun (by simp)

/-- C10 witness: a std::exception thrown at the startup banner escapes. -/
theorem pre_try_lines_outside_guard_witness :
    (runMain envPreTryThrow 1).2 = RunResult.uncaught (CxxExn.stdExn ("boom")) :=
  (pre_try_lines_outside_guard envPreTryThrow 1 (CxxExn.stdExn ("boom"))
    (Or.inl rfl)).1

end RaspibotBackend
